import Mathlib

/-!
Verification of the bill-prioritization and reminder-generation core of the
monthly-bills-reminder-manager repository.

The scoring layer is translated from src/models/bill.py and the reminder
engine from src/models/reminder_engine.py.  Dates are modelled by their day
ordinal (an integer), so that days_until_due = due_date - today, exactly the
integer the source computes.  NumPy float arithmetic is modelled by exact
rational arithmetic where the source only adds, multiplies and compares
(urgency, penalty risk, the reminder engine), and by real arithmetic where
the source genuinely needs sqrt and tanh (amount impact, composite score).
-/

namespace Bills

/-- np.dot of two equally long vectors. -/
def dot {α : Type} [Mul α] [AddCommMonoid α] (xs ys : List α) : α :=
  (List.zipWith (· * ·) xs ys).sum

/-- np.clip x lo hi: clamp x into the interval [lo, hi]. -/
def clip {α : Type} [LinearOrder α] (x lo hi : α) : α :=
  min hi (max lo x)

/-- The urgency factor array built in Bill.calculate_urgency_score
(src/models/bill.py lines 93-97): days factor, overdue indicator and
overdue penalty, as functions of days_until_due. -/
def urgency_factors (d : ℤ) : List ℚ :=
  [((max 0 (10 - d) : ℤ) : ℚ),
   if d < 0 then 1 else 0,
   if d < 0 then ((min 5 |d| : ℤ) : ℚ) else 0]

/-- Bill.calculate_urgency_score (src/models/bill.py lines 87-103):
dot of the urgency factors with weights [0.6, 0.3, 0.1], clipped to [0, 10]. -/
def calculate_urgency_score (d : ℤ) : ℚ :=
  clip (dot (urgency_factors d) [0.6, 0.3, 0.1]) 0 10

/-- The risk factor array built in Bill.calculate_penalty_risk
(src/models/bill.py lines 111-116). -/
def risk_factors (d : ℤ) (amount : ℚ) : List ℚ :=
  [if d < 0 then 1 else 0,
   if d ≤ 3 then 1 else 0,
   if d ≤ 7 then 0.5 else 0,
   amount / 1000]

/-- Bill.calculate_penalty_risk (src/models/bill.py lines 105-122):
dot of the risk factors with weights [0.4, 0.3, 0.2, 0.1], clipped to [0, 1]. -/
def calculate_penalty_risk (d : ℤ) (amount : ℚ) : ℚ :=
  clip (dot (risk_factors d amount) [0.4, 0.3, 0.2, 0.1]) 0 1

/-- A bill record (src/models/bill.py lines 9-17).  The due date is the day
ordinal of the calendar date, so days_until_due = due_date - today. -/
structure Bill where
  id : Option ℕ
  name : String
  amount : ℚ
  due_date : ℤ
  category : String
  is_paid : Bool
deriving DecidableEq

/-- np.mean. -/
noncomputable def npMean (xs : List ℝ) : ℝ := xs.sum / xs.length

/-- np.var, the population variance used by np.std. -/
noncomputable def npVar (xs : List ℝ) : ℝ :=
  ((xs.map (fun x => (x - npMean xs) ^ 2)).sum) / xs.length

/-- np.std, the population standard deviation. -/
noncomputable def npStd (xs : List ℝ) : ℝ := Real.sqrt (npVar xs)

/-- np.median: middle element of the sorted data, or the mean of the two
middle elements for even length. -/
noncomputable def npMedian (xs : List ℝ) : ℝ :=
  let s := List.insertionSort (· ≤ ·) xs
  if xs.length % 2 = 1 then s.getD (xs.length / 2) 0
  else (s.getD (xs.length / 2 - 1) 0 + s.getD (xs.length / 2) 0) / 2

/-- np.max of a non-empty array. -/
noncomputable def npMax : List ℝ → ℝ
  | [] => 0
  | x :: t => t.foldl max x

/-- The impact factor array of Bill.calculate_amount_impact_score
(src/models/bill.py lines 138-150): clamped z-score scaled to [0, 3],
ratio to max scaled to [0, 4], ratio to median scaled to [0, 2] and the
absolute amount factor.  The source also computes a percentile rank at
line 142, but that value feeds nothing, so it is not modelled. -/
noncomputable def impact_factors (amount : ℝ) (amounts : List ℝ) : List ℝ :=
  let z := (amount - npMean amounts) / (npStd amounts + 1e-6)
  [clip (z + 2) 0 4 / 4 * 3,
   amount / npMax amounts * 4,
   amount / npMedian amounts * 2,
   min (amount / 1000) 1 * 1]

/-- Bill.calculate_amount_impact_score (src/models/bill.py lines 124-156):
neutral 5.0 on an empty population, otherwise the weighted impact factors
clipped to [0, 10]. -/
noncomputable def calculate_amount_impact_score (amount : ℝ) (amounts : List ℝ) : ℝ :=
  if amounts.length = 0 then 5.0
  else clip (dot (impact_factors amount amounts) [0.3, 0.3, 0.25, 0.15]) 0 10

/-- The composite combination of Bill.get_composite_score
(src/models/bill.py lines 164-170): tanh-squash each of
[urgency, risk * 10, impact] and take the dot with [0.5, 0.3, 0.2].
The source additionally reports a confidence level 1 / (1 + variance) and
the score variance; no claim depends on those, so only the composite value
is modelled. -/
noncomputable def composite_of (urgency penalty_risk amount_impact : ℝ) : ℝ :=
  dot (([urgency, penalty_risk * 10, amount_impact]).map (fun s => Real.tanh (s / 5) * 5))
    [0.5, 0.3, 0.2]

/-- The composite_score entry of Bill.get_composite_score
(src/models/bill.py lines 158-183) for a bill with the given
days_until_due and amount, against the given amount population. -/
noncomputable def get_composite_score (d : ℤ) (amount : ℚ) (amounts : List ℝ) : ℝ :=
  composite_of (calculate_urgency_score d : ℝ) (calculate_penalty_risk d amount : ℝ)
    (calculate_amount_impact_score (amount : ℝ) amounts)

/-- The composite scores computed by Bill.get_bills_analytics
(src/models/bill.py line 196): every bill is scored against the amounts of
the whole population. -/
noncomputable def analytics_scores (today : ℤ) (bills : List Bill) : List ℝ :=
  bills.map (fun b =>
    get_composite_score (b.due_date - today) b.amount (bills.map (fun x => (x.amount : ℝ))))

/-- The high_priority_count bucket of Bill.get_bills_analytics
(src/models/bill.py line 216): the number of composite scores above 7. -/
noncomputable def high_priority_count (today : ℤ) (bills : List Bill) : ℕ :=
  (analytics_scores today bills).countP (fun s => decide (7 < s))

/-- A reminder event produced by ReminderEngine.reminder_generator
(src/models/reminder_engine.py lines 13-51).  The composite score type is a
parameter so that the ranking layer can be studied over any linear ordered
field; the source stores the float composite_score of the bill. -/
structure ReminderEvent (α : Type) where
  type : String
  message : String
  urgency_level : String
  days_until_due : ℤ
  bill_id : Option ℕ
  composite_score : α
deriving DecidableEq

/-- days_until_due = (bill.due_date - today).days. -/
def days_until_due (today : ℤ) (bill : Bill) : ℤ := bill.due_date - today

/-- ReminderEngine.reminder_generator (src/models/reminder_engine.py
lines 13-51): three independent threshold branches, each yielding at most
one event, collected in yield order. -/
def reminder_generator {α : Type} (score : Bill → α) (today : ℤ) (bill : Bill) :
    List (ReminderEvent α) :=
  (if days_until_due today bill ≤ 14 ∧ 7 < days_until_due today bill then
    [{ type := "first_reminder",
       message := "📅 Upcoming Bill: " ++ bill.name ++ " is due in " ++
         toString (days_until_due today bill) ++ " days ($" ++ toString bill.amount ++ ")",
       urgency_level := "low",
       days_until_due := days_until_due today bill,
       bill_id := bill.id,
       composite_score := score bill }]
   else []) ++
  (if days_until_due today bill ≤ 7 ∧ 0 < days_until_due today bill then
    [{ type := "urgent_reminder",
       message := "⚠️ URGENT: " ++ bill.name ++ " is due in " ++
         toString (days_until_due today bill) ++ " days! Amount: $" ++ toString bill.amount,
       urgency_level := "medium",
       days_until_due := days_until_due today bill,
       bill_id := bill.id,
       composite_score := score bill }]
   else []) ++
  (if days_until_due today bill ≤ 0 then
    [{ type := "final_alert",
       message := "🚨 FINAL ALERT: " ++ bill.name ++ " is " ++
         (if days_until_due today bill = 0 then "TODAY"
          else toString (days_until_due today bill).natAbs ++ " days OVERDUE") ++
         "! Amount: $" ++ toString bill.amount,
       urgency_level := "high",
       days_until_due := days_until_due today bill,
       bill_id := bill.id,
       composite_score := score bill }]
   else [])

/-- The urgency weight of the ranking step (src/models/reminder_engine.py
lines 68-70): 3 for high, 2 for medium, 1 otherwise. -/
def urgency_weight {α : Type} [LinearOrderedField α] (level : String) : α :=
  if level = "high" then 3 else if level = "medium" then 2 else 1

/-- The priority value assigned to one reminder event by
ReminderEngine.generate_all_reminders (src/models/reminder_engine.py
lines 73-79): composite_score * urgency_weight - max(days, 0) * 0.1, plus
abs(days) * 0.5 when the event is overdue. -/
def priority {α : Type} [LinearOrderedField α] (r : ReminderEvent α) : α :=
  r.composite_score * urgency_weight r.urgency_level -
    max (r.days_until_due : α) 0 * 0.1 +
    (if r.days_until_due < 0 then |(r.days_until_due : α)| * 0.5 else 0)

/-- The flat event list built by the loop of
ReminderEngine.generate_all_reminders (src/models/reminder_engine.py
lines 58-61), in generation order. -/
def all_bill_reminders {α : Type} (score : Bill → α) (today : ℤ) (bills : List Bill) :
    List (ReminderEvent α) :=
  (bills.map (fun b => reminder_generator score today b)).flatten

instance {α β : Type} [LinearOrder α] : DecidableRel (fun (a b : α × β) => a.1 ≤ b.1) :=
  fun a b => inferInstanceAs (Decidable (a.1 ≤ b.1))

instance {α β : Type} [LinearOrder α] : IsTotal (α × β) (fun a b => a.1 ≤ b.1) :=
  ⟨fun a b => le_total a.1 b.1⟩

instance {α β : Type} [Preorder α] : IsTrans (α × β) (fun a b => a.1 ≤ b.1) :=
  ⟨fun _ _ _ h₁ h₂ => le_trans h₁ h₂⟩

/-- ReminderEngine.generate_all_reminders (src/models/reminder_engine.py
lines 53-85): collect the per-bill events, compute the priority array, then
np.argsort(priority)[::-1] and re-index.  np.argsort is deterministic and,
on arrays of the sizes this app produces, its introsort runs as a stable
insertion sort; it is modelled by a stable ascending sort of
(priority, event) pairs, and [::-1] by List.reverse. -/
def generate_all_reminders {α : Type} [LinearOrderedField α] (score : Bill → α) (today : ℤ)
    (bills : List Bill) : List (ReminderEvent α) :=
  if (all_bill_reminders score today bills).isEmpty then []
  else
    ((List.insertionSort (fun a b : α × ReminderEvent α => a.1 ≤ b.1)
        ((all_bill_reminders score today bills).map (fun r => (priority r, r)))).reverse).map
      Prod.snd

/-- The record returned by ReminderEngine.get_reminder_stats
(src/models/reminder_engine.py lines 127-154). -/
structure ReminderStats (α : Type) where
  total_reminders : ℕ
  high : ℕ
  medium : ℕ
  low : ℕ
  average_score : α
  overdue_count : ℕ
deriving DecidableEq

/-- ReminderEngine.get_reminder_stats (src/models/reminder_engine.py
lines 127-154): the all-zero record when no reminder was generated,
otherwise counts by urgency, the mean composite score and the overdue
count. -/
def get_reminder_stats {α : Type} [LinearOrderedField α] (score : Bill → α) (today : ℤ)
    (bills : List Bill) : ReminderStats α :=
  let reminders := generate_all_reminders score today bills
  if reminders.isEmpty then
    { total_reminders := 0, high := 0, medium := 0, low := 0,
      average_score := 0, overdue_count := 0 }
  else
    { total_reminders := reminders.length,
      high := reminders.countP (fun r => r.urgency_level == "high"),
      medium := reminders.countP (fun r => r.urgency_level == "medium"),
      low := reminders.countP (fun r => r.urgency_level == "low"),
      average_score := (reminders.map (fun r => r.composite_score)).sum / (reminders.length : α),
      overdue_count := reminders.countP (fun r => r.days_until_due < 0) }

/-- Decide whether pat occurs as a prefix of the second list. -/
def hasPrefixList : List Char → List Char → Bool
  | [], _ => true
  | _ :: _, [] => false
  | p :: ps, c :: cs => p == c && hasPrefixList ps cs

/-- Decide whether pat occurs as a contiguous run inside the second list. -/
def containsList (pat : List Char) : List Char → Bool
  | [] => pat.isEmpty
  | c :: rest => hasPrefixList pat (c :: rest) || containsList pat rest

/-- Decide whether pat occurs as a substring of s; used to formalize the
message-content claims. -/
def containsStr (s pat : String) : Bool := containsList pat.data s.data

/-- A constant score function used to instantiate the engine theorems on
concrete inputs. -/
def oneQ : Bill → ℚ := fun _ => 1

/-- Demo bill due in 10 days (relative to today = 0). -/
def billA : Bill :=
  { id := some 1, name := "Electricity", amount := 100, due_date := 10,
    category := "Utilities", is_paid := false }

/-- Second demo bill due in 10 days, distinguishable from billA. -/
def billB : Bill :=
  { id := some 2, name := "Internet", amount := 100, due_date := 10,
    category := "Utilities", is_paid := false }

/-- Demo bill due exactly today (today = 0). -/
def billToday : Bill :=
  { id := some 3, name := "Rent", amount := 50, due_date := 0,
    category := "Housing", is_paid := false }

/-- Demo bill due today whose name happens to contain the word OVERDUE. -/
def billOverName : Bill :=
  { id := some 4, name := "OVERDUE Rent", amount := 50, due_date := 0,
    category := "Housing", is_paid := false }

/-- The event billA generates at today = 0 under the constant score 1. -/
def evA : ReminderEvent ℚ :=
  { type := "first_reminder",
    message := "📅 Upcoming Bill: Electricity is due in 10 days ($100)",
    urgency_level := "low", days_until_due := 10, bill_id := some 1,
    composite_score := 1 }

/-- The event billB generates at today = 0 under the constant score 1. -/
def evB : ReminderEvent ℚ :=
  { type := "first_reminder",
    message := "📅 Upcoming Bill: Internet is due in 10 days ($100)",
    urgency_level := "low", days_until_due := 10, bill_id := some 2,
    composite_score := 1 }

theorem clip_le_clip {α : Type} [LinearOrder α] {x y : α} (lo hi : α) (h : x ≤ y) :
    clip x lo hi ≤ clip y lo hi :=
  min_le_min le_rfl (max_le_max le_rfl h)

theorem clip_mem_Icc {α : Type} [LinearOrder α] {lo hi : α} (h : lo ≤ hi) (x : α) :
    clip x lo hi ∈ Set.Icc lo hi :=
  ⟨le_min h (le_max_left lo x), min_le_left hi _⟩

/-- The urgency score never decreases when days_until_due decreases. -/
theorem urgency_score_anti {d₁ d₂ : ℤ} (h : d₂ ≤ d₁) :
    calculate_urgency_score d₁ ≤ calculate_urgency_score d₂ := by
  unfold calculate_urgency_score
  apply clip_le_clip
  simp only [dot, urgency_factors, List.zipWith, List.sum_cons, List.sum_nil]
  have h1 : ((max 0 (10 - d₁) : ℤ) : ℚ) ≤ ((max 0 (10 - d₂) : ℤ) : ℚ) := by
    exact_mod_cast max_le_max le_rfl (show (10 - d₁ : ℤ) ≤ 10 - d₂ by omega)
  have h2 : (if d₁ < 0 then (1 : ℚ) else 0) ≤ (if d₂ < 0 then (1 : ℚ) else 0) := by
    split_ifs with p q q
    · exact le_rfl
    · exact (show False by omega).elim
    · norm_num
    · exact le_rfl
  have h3 : (if d₁ < 0 then ((min 5 |d₁| : ℤ) : ℚ) else 0) ≤
      (if d₂ < 0 then ((min 5 |d₂| : ℤ) : ℚ) else 0) := by
    split_ifs with p q q
    · rw [abs_of_neg p, abs_of_neg q]
      exact_mod_cast min_le_min le_rfl (show (-d₁ : ℤ) ≤ -d₂ by omega)
    · exact (show False by omega).elim
    · rw [abs_of_neg q]
      exact_mod_cast le_min (show (0 : ℤ) ≤ 5 by norm_num) (show (0 : ℤ) ≤ -d₂ by omega)
    · exact le_rfl
  linarith

/-- C5: for d₁ > d₂ in [-30, 30], the urgency score at d₂ dominates the one
at d₁, and both are clamped into [0, 10]. -/
theorem C5_urgency_monotone (d₁ d₂ : ℤ) (h₁ : -30 ≤ d₂) (h₂ : d₂ < d₁) (h₃ : d₁ ≤ 30) :
    calculate_urgency_score d₁ ≤ calculate_urgency_score d₂ ∧
    calculate_urgency_score d₁ ∈ Set.Icc (0 : ℚ) 10 ∧
    calculate_urgency_score d₂ ∈ Set.Icc (0 : ℚ) 10 :=
  ⟨urgency_score_anti h₂.le,
   clip_mem_Icc (by norm_num) _,
   clip_mem_Icc (by norm_num) _⟩

theorem C5_witness :
    calculate_urgency_score 3 ≤ calculate_urgency_score 1 ∧
    calculate_urgency_score 3 ∈ Set.Icc (0 : ℚ) 10 ∧
    calculate_urgency_score 1 ∈ Set.Icc (0 : ℚ) 10 :=
  C5_urgency_monotone 3 1 (by decide) (by decide) (by decide)

/-- C4 fails as stated: at amount 1200 and days_until_due 2 the penalty risk
is 0.52, not the claimed 0.57 (the dot product is 0 * 0.4 + 1 * 0.3 +
0.5 * 0.2 + 1.2 * 0.1 = 0.52). -/
theorem C4_counterexample : calculate_penalty_risk 2 1200 ≠ (0.57 : ℚ) := by
  norm_num [calculate_penalty_risk, clip, dot, risk_factors, min_def, max_def]

/-- C4 amended: at amount 1200 and days_until_due 2 the urgency factors are
[8, 0, 0] and the urgency score is 4.8; the risk factors are
[0, 1, 0.5, 1.2] and the penalty risk after clipping to [0, 1] is 0.52. -/
theorem C4_scenario :
    urgency_factors 2 = [8, 0, 0] ∧
    calculate_urgency_score 2 = 4.8 ∧
    risk_factors 2 1200 = [0, 1, 0.5, 1.2] ∧
    calculate_penalty_risk 2 1200 = 0.52 := by
  refine ⟨?_, ?_, ?_, ?_⟩ <;>
    norm_num [calculate_urgency_score, calculate_penalty_risk, clip, dot,
      urgency_factors, risk_factors, min_def, max_def]

theorem tanh_lt_one (x : ℝ) : Real.tanh x < 1 := by
  rw [Real.tanh_eq_sinh_div_cosh]
  exact (div_lt_one (Real.cosh_pos x)).mpr (Real.sinh_lt_cosh x)

theorem tanh_nonneg {x : ℝ} (hx : 0 ≤ x) : 0 ≤ Real.tanh x := by
  rw [Real.tanh_eq_sinh_div_cosh]
  exact div_nonneg (Real.sinh_nonneg_iff.mpr hx) (Real.cosh_pos x).le

theorem composite_of_mem {u r i : ℝ} (hu : 0 ≤ u) (hr : 0 ≤ r) (hi : 0 ≤ i) :
    composite_of u r i ∈ Set.Ico (0 : ℝ) 5 := by
  have h1 := tanh_lt_one (u / 5)
  have h2 := tanh_lt_one (r * 10 / 5)
  have h3 := tanh_lt_one (i / 5)
  have n1 : 0 ≤ Real.tanh (u / 5) := tanh_nonneg (by positivity)
  have n2 : 0 ≤ Real.tanh (r * 10 / 5) := tanh_nonneg (by positivity)
  have n3 : 0 ≤ Real.tanh (i / 5) := tanh_nonneg (by positivity)
  simp only [composite_of, dot, List.map, List.zipWith, List.sum_cons, List.sum_nil]
  constructor
  · nlinarith
  · nlinarith

theorem urgency_score_nonneg (d : ℤ) : 0 ≤ calculate_urgency_score d :=
  (clip_mem_Icc (by norm_num) _).1

theorem penalty_risk_nonneg (d : ℤ) (amount : ℚ) : 0 ≤ calculate_penalty_risk d amount :=
  (clip_mem_Icc (by norm_num) _).1

theorem amount_impact_nonneg (amount : ℝ) (amounts : List ℝ) :
    0 ≤ calculate_amount_impact_score amount amounts := by
  unfold calculate_amount_impact_score
  split
  · norm_num
  · exact (clip_mem_Icc (by norm_num) _).1

theorem get_composite_score_mem (d : ℤ) (amount : ℚ) (amounts : List ℝ) :
    get_composite_score d amount amounts ∈ Set.Ico (0 : ℝ) 5 :=
  composite_of_mem
    (by exact_mod_cast urgency_score_nonneg d)
    (by exact_mod_cast penalty_risk_nonneg d amount)
    (amount_impact_nonneg _ _)

/-- C6: the amount-impact score is total and division-safe: the empty
population returns the neutral 5.0, and on any non-empty population the
z-score denominator npStd + 1e-6 is positive (no division by zero) and the
result is clipped into [0, 10]. -/
theorem C6_amount_impact_total (amount : ℝ) (amounts : List ℝ) (h : amounts ≠ []) :
    calculate_amount_impact_score amount [] = 5 ∧
    0 < npStd amounts + 1e-6 ∧
    calculate_amount_impact_score amount amounts ∈ Set.Icc (0 : ℝ) 10 := by
  refine ⟨by norm_num [calculate_amount_impact_score], ?_, ?_⟩
  · have := Real.sqrt_nonneg (npVar amounts)
    unfold npStd
    norm_num
    linarith
  · unfold calculate_amount_impact_score
    rw [if_neg (by simpa [List.length_eq_zero] using h)]
    exact clip_mem_Icc (by norm_num) _

theorem C6_witness :
    0 < npStd [1200] + 1e-6 ∧
    calculate_amount_impact_score 1200 [1200] ∈ Set.Icc (0 : ℝ) 10 :=
  (C6_amount_impact_total 1200 [1200] (by simp)).2

/-- C10: the composite score always lies in [0, 5): the three sub-scores are
non-negative and each tanh-squashed term stays below 5 while the weights
[0.5, 0.3, 0.2] sum to 1; consequently the analytics bucket counting
composite scores above 7 as high priority is always zero. -/
theorem C10_composite_bounded :
    (∀ (d : ℤ) (amount : ℚ) (amounts : List ℝ),
      get_composite_score d amount amounts ∈ Set.Ico (0 : ℝ) 5) ∧
    (∀ (today : ℤ) (bills : List Bill), high_priority_count today bills = 0) := by
  refine ⟨fun d amount amounts => get_composite_score_mem d amount amounts, ?_⟩
  intro today bills
  unfold high_priority_count
  rw [List.countP_eq_zero]
  intro s hs
  simp only [decide_eq_true_eq]
  obtain ⟨b, _, rfl⟩ := List.mem_map.mp hs
  have := (get_composite_score_mem (b.due_date - today) b.amount
    (bills.map (fun x => (x.amount : ℝ)))).2
  intro hcon
  linarith

/-- C3: each bill yields at most one event; none when days_until_due > 14,
and exactly one final_alert event with urgency high when
days_until_due ≤ 0. -/
theorem C3_per_bill_cases {α : Type} (score : Bill → α) (today : ℤ) (bill : Bill) :
    (reminder_generator score today bill).length ≤ 1 ∧
    (14 < days_until_due today bill → reminder_generator score today bill = []) ∧
    (days_until_due today bill ≤ 0 →
      ∃ msg : String, reminder_generator score today bill =
        [{ type := "final_alert", message := msg, urgency_level := "high",
           days_until_due := days_until_due today bill, bill_id := bill.id,
           composite_score := score bill }]) := by
  refine ⟨?_, fun h14 => ?_, fun h0 => ?_⟩ <;>
    · unfold reminder_generator
      split_ifs with h1 h2 h3 <;>
        simp_all <;> omega

theorem C3_witness :
    (reminder_generator (fun _ => (1 : ℚ)) 0 billToday).length ≤ 1 ∧
    (∃ msg : String, reminder_generator (fun _ => (1 : ℚ)) 0 billToday =
      [{ type := "final_alert", message := msg, urgency_level := "high",
         days_until_due := days_until_due 0 billToday, bill_id := billToday.id,
         composite_score := 1 }]) :=
  ⟨(C3_per_bill_cases (fun _ => (1 : ℚ)) 0 billToday).1,
   (C3_per_bill_cases (fun _ => (1 : ℚ)) 0 billToday).2.2 (by decide)⟩

/-- C7: the reminder pipeline is deterministic: equal score functions, equal
snapshot dates and equal bill snapshots produce identical outputs. -/
theorem C7_deterministic {α : Type} [LinearOrderedField α] (score₁ score₂ : Bill → α)
    (today₁ today₂ : ℤ) (bills₁ bills₂ : List Bill)
    (hs : score₁ = score₂) (ht : today₁ = today₂) (hb : bills₁ = bills₂) :
    generate_all_reminders score₁ today₁ bills₁ = generate_all_reminders score₂ today₂ bills₂ := by
  subst hs; subst ht; subst hb; rfl

theorem C7_witness :
    generate_all_reminders oneQ 0 [billA, billB] = generate_all_reminders oneQ 0 [billA, billB] :=
  C7_deterministic oneQ oneQ 0 0 [billA, billB] [billA, billB] rfl rfl rfl

/-- C8: with an empty bill population no reminder is generated and the stats
call returns the all-zero record instead of failing. -/
theorem C8_stats_empty {α : Type} [LinearOrderedField α] (score : Bill → α) (today : ℤ) :
    get_reminder_stats score today [] =
      { total_reminders := 0, high := 0, medium := 0, low := 0,
        average_score := 0, overdue_count := 0 } := rfl

theorem containsList_nil_pat : ∀ hay : List Char, containsList [] hay = true
  | [] => rfl
  | _ :: rest => by
    simp [containsList, hasPrefixList]

theorem hasPrefixList_append (pat : List Char) :
    ∀ xs ys : List Char, hasPrefixList pat xs = true → hasPrefixList pat (xs ++ ys) = true := by
  induction pat with
  | nil => intro xs ys _; rfl
  | cons p ps ih =>
    intro xs ys hx
    cases xs with
    | nil => simp [hasPrefixList] at hx
    | cons x xs' =>
      rw [List.cons_append]
      simp only [hasPrefixList, Bool.and_eq_true] at hx ⊢
      exact ⟨hx.1, ih xs' ys hx.2⟩

theorem containsList_append_left (pat : List Char) :
    ∀ xs ys : List Char, containsList pat xs = true → containsList pat (xs ++ ys) = true := by
  intro xs
  induction xs with
  | nil =>
    intro ys hx
    have : pat = [] := by
      cases pat with
      | nil => rfl
      | cons a l => simp [containsList, List.isEmpty] at hx
    subst this
    exact containsList_nil_pat ys
  | cons x xs' ih =>
    intro ys hx
    simp only [containsList, Bool.or_eq_true] at hx ⊢
    rcases hx with hpre | hrest
    · exact Or.inl (hasPrefixList_append pat (x :: xs') ys hpre)
    · exact Or.inr (ih ys hrest)

theorem containsList_append_right (pat : List Char) :
    ∀ xs ys : List Char, containsList pat ys = true → containsList pat (xs ++ ys) = true := by
  intro xs
  induction xs with
  | nil => intro ys h; exact h
  | cons x xs' ih =>
    intro ys h
    simp only [List.cons_append, containsList, Bool.or_eq_true]
    exact Or.inr (ih ys h)

/-- C9 fails as stated: a bill due today whose name contains the word
OVERDUE produces a final alert whose message does contain OVERDUE. -/
theorem C9_counterexample :
    reminder_generator oneQ 0 billOverName =
      [{ type := "final_alert",
         message := "🚨 FINAL ALERT: OVERDUE Rent is TODAY! Amount: $50",
         urgency_level := "high", days_until_due := 0, bill_id := some 4,
         composite_score := 1 }] ∧
    containsStr "🚨 FINAL ALERT: OVERDUE Rent is TODAY! Amount: $50" "OVERDUE" = true := by
  exact ⟨by decide, by decide⟩

/-- C9 amended: a bill due exactly today yields the single final_alert event
with urgency high; its message is the TODAY template, which contains
TODAY, and the days-OVERDUE descriptor is not chosen (the full message can
still contain OVERDUE, but only via the interpolated bill name). -/
theorem C9_due_today {α : Type} (score : Bill → α) (today : ℤ) (bill : Bill)
    (h : days_until_due today bill = 0) :
    reminder_generator score today bill =
      [{ type := "final_alert",
         message := "🚨 FINAL ALERT: " ++ bill.name ++ " is " ++ "TODAY" ++ "! Amount: $" ++
           toString bill.amount,
         urgency_level := "high", days_until_due := 0, bill_id := bill.id,
         composite_score := score bill }] ∧
    containsStr ("🚨 FINAL ALERT: " ++ bill.name ++ " is " ++ "TODAY" ++ "! Amount: $" ++
      toString bill.amount) "TODAY" = true := by
  constructor
  · unfold reminder_generator
    rw [h]
    norm_num
  · unfold containsStr
    simp only [String.data_append]
    exact containsList_append_left _ _ _
      (containsList_append_left _ _ _
        (containsList_append_right _ _ _ (by decide)))

theorem C9_witness :
    reminder_generator oneQ 0 billToday =
      [{ type := "final_alert",
         message := "🚨 FINAL ALERT: " ++ billToday.name ++ " is " ++ "TODAY" ++ "! Amount: $" ++
           toString billToday.amount,
         urgency_level := "high", days_until_due := 0, bill_id := billToday.id,
         composite_score := oneQ billToday }] ∧
    containsStr ("🚨 FINAL ALERT: " ++ billToday.name ++ " is " ++ "TODAY" ++ "! Amount: $" ++
      toString billToday.amount) "TODAY" = true :=
  C9_due_today oneQ 0 billToday (by decide)

theorem urgency_weight_low {α : Type} [LinearOrderedField α] :
    (urgency_weight "low" : α) = 1 := by
  rw [urgency_weight, if_neg (by decide), if_neg (by decide)]

/-- C1: on a non-empty generated event list, generate_all_reminders returns
a permutation of the generated events sorted in descending order of the
priority value composite_score * urgency_weight - max(days, 0) * 0.1 +
(overdue bonus abs(days) * 0.5). -/
theorem C1_ranked {α : Type} [LinearOrderedField α] (score : Bill → α) (today : ℤ)
    (bills : List Bill) (h : all_bill_reminders score today bills ≠ []) :
    (generate_all_reminders score today bills).Perm (all_bill_reminders score today bills) ∧
    (generate_all_reminders score today bills).Pairwise
      (fun e₁ e₂ => priority e₂ ≤ priority e₁) := by
  unfold generate_all_reminders
  rw [if_neg (fun hh => h (List.isEmpty_iff.mp hh))]
  constructor
  · have hmap : ((all_bill_reminders score today bills).map
        (fun r => (priority r, r))).map Prod.snd = all_bill_reminders score today bills := by
      rw [List.map_map]
      exact List.map_id _
    have hperm := ((List.reverse_perm _).map Prod.snd).trans
      ((List.perm_insertionSort (fun a b : α × ReminderEvent α => a.1 ≤ b.1)
        ((all_bill_reminders score today bills).map (fun r => (priority r, r)))).map Prod.snd)
    rw [hmap] at hperm
    exact hperm
  · have hsorted := List.sorted_insertionSort (fun a b : α × ReminderEvent α => a.1 ≤ b.1)
      ((all_bill_reminders score today bills).map (fun r => (priority r, r)))
    have hrev : ((List.insertionSort (fun a b : α × ReminderEvent α => a.1 ≤ b.1)
        ((all_bill_reminders score today bills).map (fun r => (priority r, r)))).reverse).Pairwise
        (fun a b => b.1 ≤ a.1) :=
      List.pairwise_reverse.mpr hsorted
    have hmem : ∀ x ∈ (List.insertionSort (fun a b : α × ReminderEvent α => a.1 ≤ b.1)
        ((all_bill_reminders score today bills).map (fun r => (priority r, r)))).reverse,
        x.1 = priority x.2 := by
      intro x hx
      rw [List.mem_reverse] at hx
      have hx2 := (List.perm_insertionSort (fun a b : α × ReminderEvent α => a.1 ≤ b.1)
        ((all_bill_reminders score today bills).map (fun r => (priority r, r)))).mem_iff.mp hx
      obtain ⟨r0, _, rfl⟩ := List.mem_map.mp hx2
      rfl
    rw [List.pairwise_map]
    refine List.Pairwise.imp_of_mem ?_ hrev
    intro a b ha hb hab
    rw [← hmem a ha, ← hmem b hb]
    exact hab

theorem C1_witness :
    (generate_all_reminders oneQ 0 [billA, billB]).Perm
      (all_bill_reminders oneQ 0 [billA, billB]) ∧
    (generate_all_reminders oneQ 0 [billA, billB]).Pairwise
      (fun e₁ e₂ => priority e₂ ≤ priority e₁) :=
  C1_ranked oneQ 0 [billA, billB] (by decide)

/-- C2 fails as stated: two distinct events with equal priority come out of
generate_all_reminders in reverse generation order, because the code
reverses a stable ascending argsort instead of stably sorting in descending
order. -/
theorem C2_counterexample :
    all_bill_reminders oneQ 0 [billA, billB] = [evA, evB] ∧
    priority evA = priority evB ∧
    evA ≠ evB ∧
    generate_all_reminders oneQ 0 [billA, billB] = [evB, evA] := by
  have hA : priority evA = 0 := by
    norm_num [priority, urgency_weight_low, evA, max_def]
  have hB : priority evB = 0 := by
    norm_num [priority, urgency_weight_low, evB, max_def]
  have hall : all_bill_reminders oneQ 0 [billA, billB] = [evA, evB] := by decide
  refine ⟨hall, by rw [hA, hB], by decide, ?_⟩
  unfold generate_all_reminders
  rw [hall]
  rw [if_neg (by decide)]
  simp only [List.map, hA, hB]

/-- C2 amended: two events with equal computed priority appear in the output
in reverse generation order: whenever [a, b] is a sublist of the generated
event list and their priorities are equal, [b, a] is a sublist of the
ranked output. -/
theorem C2_ties_reversed {α : Type} [LinearOrderedField α] (score : Bill → α) (today : ℤ)
    (bills : List Bill) (a b : ReminderEvent α)
    (hsub : [a, b].Sublist (all_bill_reminders score today bills))
    (heq : priority a = priority b) :
    [b, a].Sublist (generate_all_reminders score today bills) := by
  have hne : all_bill_reminders score today bills ≠ [] := by
    intro h0
    rw [h0] at hsub
    simp at hsub
  unfold generate_all_reminders
  rw [if_neg (fun hh => hne (List.isEmpty_iff.mp hh))]
  have htag : [(priority a, a), (priority b, b)].Sublist
      ((all_bill_reminders score today bills).map (fun r => (priority r, r))) := by
    simpa using hsub.map (fun r => (priority r, r))
  have hstable := @List.pair_sublist_insertionSort (α × ReminderEvent α)
    (fun x y => x.1 ≤ y.1) _ (priority a, a) (priority b, b)
    ((all_bill_reminders score today bills).map (fun r => (priority r, r)))
    (le_of_eq heq) htag
  have hrev := hstable.reverse
  simp only [List.reverse_cons, List.reverse_nil, List.nil_append, List.cons_append] at hrev
  simpa using hrev.map Prod.snd

theorem C2_witness : [evB, evA].Sublist (generate_all_reminders oneQ 0 [billA, billB]) := by
  refine C2_ties_reversed oneQ 0 [billA, billB] evA evB ?_ ?_
  · rw [show all_bill_reminders oneQ 0 [billA, billB] = [evA, evB] from by decide]
  · have hA : priority evA = 0 := by
      norm_num [priority, urgency_weight_low, evA, max_def]
    have hB : priority evB = 0 := by
      norm_num [priority, urgency_weight_low, evB, max_def]
    rw [hA, hB]

end Bills
